import Mathlib

/-!
Verification of the Coast2Cart marketplace backend: a shallow embedding of
its account / OTP / item / cart / receipt data model and of the request
handlers that the specification describes, together with theorems settling
the specification's claims against the code.

Conventions of the embedding:
* Mongo ObjectIds become `Nat` identifiers.
* JS numbers used for money and quantities become `ℚ` (the code only ever
  adds, subtracts, multiplies and compares them).
* JS `Date` timestamps become `Int` milliseconds since the epoch.
* A controller returning through `next(new XError(...))` or `throw` becomes
  a function into `Except ApiError _`; each database `save` becomes an
  explicit state-to-state function.
-/

/-- Account roles, from the `role` enum of `models/Accounts.js`. -/
inductive Role
  | buyer
  | seller
  | admin
  | superadmin
deriving DecidableEq, Repr

/-- Seller approval states, from the `sellerApprovalStatus` enum of
`models/Accounts.js`. -/
inductive ApprovalStatus
  | pending
  | approved
  | rejected
deriving DecidableEq, Repr

/-- Error taxonomy of `errors/index.js` as surfaced by the controllers. -/
inductive ApiError
  | badRequest (msg : String)
  | unauthenticated (msg : String)
  | unauthorized (msg : String)
  | notFound (msg : String)
  | conflict (msg : String)
  | tooManyRequests (msg : String)
deriving DecidableEq, Repr

/-- Recognizer for the `BadRequestError` branch of the taxonomy. -/
def ApiError.isBadRequest : ApiError → Bool
  | .badRequest _ => true
  | _ => false

/-- Recognizer for the `NotFoundError` branch of the taxonomy. -/
def ApiError.isNotFound : ApiError → Bool
  | .notFound _ => true
  | _ => false

/-- Recognizer for the `ConflictError` branch of the taxonomy. -/
def ApiError.isConflict : ApiError → Bool
  | .conflict _ => true
  | _ => false

/-- Recognizer for the `UnauthenticatedError` branch of the taxonomy. -/
def ApiError.isUnauthenticated : ApiError → Bool
  | .unauthenticated _ => true
  | _ => false

/-- Recognizer for the `TooManyRequestsError` branch of the taxonomy. -/
def ApiError.isTooManyRequests : ApiError → Bool
  | .tooManyRequests _ => true
  | _ => false

namespace PhilSMSService

/-- `generateOTP` of `services/philsmsService.js`:
`Math.floor(100000 + Math.random() * 900000).toString()`.
`Math.random()` returns a value `r` with `0 ≤ r < 1`; the embedding takes
that value as an argument and returns the numeric value of the generated
string. -/
def generateOTP (r : ℚ) : ℕ :=
  (Int.toNat ⌊(100000 : ℚ) + r * 900000⌋)

/-- `verifyOTP(storedOTP, inputOTP, expiresAt)` of
`services/philsmsService.js`: `isExpired = now > expiresAt`,
`isMatch = storedOTP === inputOTP`, result `!isExpired && isMatch`. -/
def verifyOTP (storedOTP inputOTP : String) (expiresAt : Int) (now : Int) : Bool :=
  !(decide (now > expiresAt)) && (storedOTP == inputOTP)

end PhilSMSService

/-- An account document, from `models/Accounts.js`. The password field holds
the stored (hashed) secret; hashing itself is the external bcrypt library,
so the embedding keeps the stored secret abstract as a string. Optional
fields that the pre-save hook may clear are `Option`s. -/
structure Account where
  id : Nat
  username : String
  email : String
  contactNo : String
  password : String
  role : Role
  isVerified : Bool
  sellerApprovalStatus : Option ApprovalStatus
  approvedBy : Option Nat
  approvedAt : Option Int
deriving DecidableEq, Repr

/-- An OTP document, from the `otpSchema` model: owning account, digit
string, expiry timestamp, plus the `timestamps: true` creation time and the
Mongo `_id` used by `findByIdAndDelete`. -/
structure OTPRecord where
  id : Nat
  userId : Nat
  otp : String
  expiresAt : Int
  createdAt : Int
deriving DecidableEq, Repr

/-- An item document, from `models/Item.js` (fields used by the handlers in
scope). -/
structure Item where
  id : Nat
  seller : Nat
  itemType : String
  itemName : String
  itemPrice : ℚ
  quantity : ℚ
  unit : String
  image : String
  imagePublicId : String
  isActive : Bool
deriving DecidableEq, Repr

/-- A receipt document, from the sold-item schema (`models/Receipt.js`):
an immutable snapshot of the item at sale time. -/
structure Receipt where
  item : Nat
  seller : Nat
  buyer : Nat
  itemType : String
  itemName : String
  itemPrice : ℚ
  quantitySold : ℚ
  unit : String
  totalAmount : ℚ
  image : String
  imagePublicId : String
  notes : String
deriving DecidableEq, Repr

/-- One (item, quantity) line of a cart, from `cartItemSchema` in
`models/Cart.js`. -/
structure CartLine where
  item : Nat
  quantity : ℚ
deriving DecidableEq, Repr

/-- A cart document, from `cartSchema` in `models/Cart.js`: one cart per
user holding a list of lines. -/
structure Cart where
  user : Nat
  items : List CartLine
deriving DecidableEq, Repr

/-- A signed session token as produced by the external `jsonwebtoken`
library's `jwt.sign(payload, secret, options)`: the embedding records the
payload (`{ userId }`) and the expiry option that `middleware/auth.js`
passes; the cryptographic signing itself is the external library. -/
structure Token where
  userId : Nat
  expiresIn : String
deriving DecidableEq, Repr

/-- `generateToken` of `middleware/auth.js`:
`jwt.sign({ userId }, process.env.JWT_SECRET, { expiresIn: "7d" })`. -/
def generateToken (userId : Nat) : Token :=
  { userId := userId, expiresIn := "7d" }

/-- The persistent database state visible to the handlers: the `accounts`,
`otps`, `items`, `receipts` and `carts` collections. -/
structure DB where
  accounts : List Account
  otps : List OTPRecord
  items : List Item
  receipts : List Receipt
  carts : List Cart
deriving DecidableEq, Repr

/-- `Item.findById`. -/
def DB.findItemById (db : DB) (itemId : Nat) : Option Item :=
  db.items.find? (fun it => it.id == itemId)

/-- `Account.findById`. -/
def DB.findAccountById (db : DB) (accountId : Nat) : Option Account :=
  db.accounts.find? (fun a => a.id == accountId)

/-- `Account.findOne({ contactNo })`. -/
def DB.findAccountByContact (db : DB) (contactNo : String) : Option Account :=
  db.accounts.find? (fun a => a.contactNo == contactNo)

/-- `Cart.findOne({ user })`. -/
def DB.findCartByUser (db : DB) (userId : Nat) : Option Cart :=
  db.carts.find? (fun c => c.user == userId)

/-- `item.save()` after mutating an already-loaded document: replaces the
stored document with the same `_id`. -/
def DB.saveItem (db : DB) (item : Item) : DB :=
  { db with items := db.items.map (fun it => if it.id == item.id then item else it) }

/-- `account.save()` persistence step (the pre-save hook is applied
separately by the callers that can modify `role`). -/
def DB.saveAccount (db : DB) (a : Account) : DB :=
  { db with accounts := db.accounts.map (fun x => if x.id == a.id then a else x) }

/-- `receipt.save()` on a new receipt document: appends it to the
collection. -/
def DB.saveReceipt (db : DB) (r : Receipt) : DB :=
  { db with receipts := db.receipts ++ [r] }

/-- `cart.save()` on a possibly-new cart: replaces the cart of the same
user, or inserts it if that user had no cart. -/
def DB.saveCart (db : DB) (c : Cart) : DB :=
  if db.carts.any (fun x => x.user == c.user) then
    { db with carts := db.carts.map (fun x => if x.user == c.user then c else x) }
  else
    { db with carts := db.carts ++ [c] }

/-- The request payload of `POST /items/:id/sell` handled by `sellItem` in
`controllers/itemController.js` (`req.params.itemId`, `req.body`, and the
authenticated caller `req.user.id`). -/
structure SellReq where
  callerId : Nat
  itemId : Nat
  quantitySold : ℚ
  buyerId : Nat
  notes : String
deriving DecidableEq, Repr

/-- The receipt document built by `sellItem` before `receipt.save()`:
a field-for-field snapshot of the item, with
`totalAmount = item.itemPrice * parseFloat(quantitySold)`. -/
def mkReceipt (item : Item) (req : SellReq) : Receipt :=
  { item := item.id
    seller := item.seller
    buyer := req.buyerId
    itemType := item.itemType
    itemName := item.itemName
    itemPrice := item.itemPrice
    quantitySold := req.quantitySold
    unit := item.unit
    totalAmount := item.itemPrice * req.quantitySold
    image := item.image
    imagePublicId := item.imagePublicId
    notes := req.notes }

/-- Progress of one `sellItem` execution between its database writes.
`checked` holds the item snapshot read by `Item.findById` after all
validations passed; `receiptSaved` is the point right after
`receipt.save()` and right before `item.save()`. -/
inductive SellPhase
  | start
  | checked (snapshot : Item)
  | receiptSaved (snapshot : Item)
  | succeeded
  | failed (e : ApiError)
deriving DecidableEq, Repr

/-- One atomic database interaction of `sellItem` in
`controllers/itemController.js`. From `start`: the `Item.findById` read,
the ownership / active / quantity checks on that snapshot, and the
`Account.findById(buyerId)` read. From `checked`: the `receipt.save()`
write. From `receiptSaved`: the `item.save()` write, which persists
`quantity = snapshot.quantity - quantitySold` computed from the snapshot
and flips `isActive` to false when that result is `<= 0`. -/
def sellStep (db : DB) (req : SellReq) : SellPhase → DB × SellPhase
  | .start =>
    match db.findItemById req.itemId with
    | none => (db, .failed (.notFound "Item not found"))
    | some item =>
      if item.seller ≠ req.callerId then
        (db, .failed (.unauthorized "You can only sell your own items"))
      else if ¬ item.isActive then
        (db, .failed (.badRequest "Cannot sell inactive item"))
      else if req.quantitySold > item.quantity then
        (db, .failed (.badRequest "Insufficient quantity available"))
      else
        match db.findAccountById req.buyerId with
        | none => (db, .failed (.notFound "Buyer not found"))
        | some _ => (db, .checked item)
  | .checked item => (db.saveReceipt (mkReceipt item req), .receiptSaved item)
  | .receiptSaved item =>
    let newQty := item.quantity - req.quantitySold
    let item' : Item :=
      { item with
        quantity := newQty
        isActive := if newQty ≤ 0 then false else item.isActive }
    (db.saveItem item', .succeeded)
  | .succeeded => (db, .succeeded)
  | .failed e => (db, .failed e)

/-- A complete, uninterrupted run of the `sellItem` handler: the three
database interactions of `sellStep` in order. -/
def sellItem (db : DB) (req : SellReq) : DB × SellPhase :=
  let s1 := sellStep db req .start
  let s2 := sellStep s1.fst req s1.snd
  sellStep s2.fst req s2.snd

/-- A run of `sellItem` in which the `item.save()` write throws after
`receipt.save()` has already succeeded: execution stops after the second
database interaction and the error propagates through `next(error)`,
leaving whatever was persisted up to that point. -/
def sellItemItemSaveFails (db : DB) (req : SellReq) : DB × SellPhase :=
  let s1 := sellStep db req .start
  sellStep s1.fst req s1.snd

/-- Two in-flight `sellItem` requests against one shared database, as the
request-per-task concurrency model of the server allows. -/
structure SellSession where
  db : DB
  reqA : SellReq
  reqB : SellReq
  phaseA : SellPhase
  phaseB : SellPhase
deriving DecidableEq, Repr

/-- Scheduler step: run the next atomic database interaction of request A
(`true`) or request B (`false`). -/
def schedStep (s : SellSession) (pickA : Bool) : SellSession :=
  if pickA then
    let r := sellStep s.db s.reqA s.phaseA
    { s with db := r.fst, phaseA := r.snd }
  else
    let r := sellStep s.db s.reqB s.phaseB
    { s with db := r.fst, phaseB := r.snd }

/-- Run a whole interleaving (a list of scheduler picks). -/
def runSched (s : SellSession) : List Bool → SellSession
  | [] => s
  | b :: bs => runSched (schedStep s b) bs

/-- The role-handling part of the `accountSchema.pre("save")` hook in
`models/Accounts.js`: when the `role` path is modified, a seller gets
`sellerApprovalStatus = "pending"` and any other role gets
`sellerApprovalStatus`, `approvedBy` and `approvedAt` set to `undefined`.
(The hook's other branch, bcrypt password hashing, is the external hashing
library and does not touch these fields.) -/
def accountPreSaveHook (roleModified : Bool) (a : Account) : Account :=
  if roleModified then
    if a.role = .seller then
      { a with sellerApprovalStatus := some .pending }
    else
      { a with sellerApprovalStatus := none, approvedBy := none, approvedAt := none }
  else a

/-- `Account.create(data)` for the controller payloads, all of which set
`role` explicitly: the schema default `sellerApprovalStatus: "pending"` is
applied to the raw document, then the pre-save hook runs with the `role`
path modified. -/
def createAccount (id : Nat) (username email contactNo password : String)
    (role : Role) (isVerified : Bool) : Account :=
  accountPreSaveHook true
    { id := id
      username := username
      email := email
      contactNo := contactNo
      password := password
      role := role
      isVerified := isVerified
      sellerApprovalStatus := some .pending
      approvedBy := none
      approvedAt := none }

/-- `comparePassword` of `models/Accounts.js` delegates to external
`bcrypt.compare(candidate, storedHash)`; the embedding keeps the stored
secret abstract and models the comparison as the candidate matching it. -/
def comparePassword (candidate stored : String) : Bool :=
  candidate == stored

/-- JS `String.prototype.toLowerCase()`, character by character. -/
def lowerStr (s : String) : String :=
  ⟨s.data.map Char.toLower⟩

/-- JS `String.prototype.split(sep)` for a one-character separator,
over the string's character list. -/
def splitOnChar (sep : Char) : List Char → List (List Char)
  | [] => [[]]
  | c :: cs =>
    let rest := splitOnChar sep cs
    if c = sep then [] :: rest
    else
      match rest with
      | [] => [[c]]
      | g :: gs => (c :: g) :: gs

/-- `normalizeEmail` of `controllers/authController.js` (unified auth
revision): lowercase; for the `gmail.com` / `googlemail.com` domains
additionally strip periods (`replace(/\./g, "")`) from the local part and
rebuild `local@domain`. -/
def normalizeEmail (email : String) : String :=
  let lower := lowerStr email
  let parts := splitOnChar '@' lower.data
  match parts with
  | [] => lower
  | localPart :: rest =>
    match rest.head? with
    | none => lower
    | some domain =>
      if domain = "gmail.com".data ∨ domain = "googlemail.com".data then
        ⟨localPart.filter (fun c => c ≠ '.') ++ '@' :: domain⟩
      else lower

/-- The `Account.findOne({$or: [...]})` lookup of `login`: the identifier
matched against lowercased username, normalized email (normalization only
applied when the identifier contains `@`), or exact contact number. -/
def findAccountByIdentifier (db : DB) (identifier : String) : Option Account :=
  let normalizedIdentifier :=
    if identifier.data.contains '@' then normalizeEmail identifier
    else lowerStr identifier
  db.accounts.find? (fun a =>
    a.username == lowerStr identifier ||
    a.email == normalizedIdentifier ||
    a.contactNo == identifier)

/-- `OTP.findOne({ userId }).sort({ createdAt: -1 })` restricted to the
given record list: the record with the greatest `createdAt` (the first in
descending sort order, so the earlier record wins ties). -/
def mostRecentIn : List OTPRecord → Option OTPRecord
  | [] => none
  | r :: rs =>
    match mostRecentIn rs with
    | none => some r
    | some best => if best.createdAt > r.createdAt then some best else some r

/-- `OTP.findOne({ userId: account._id }).sort({ createdAt: -1 })`. -/
def DB.mostRecentOTPFor (db : DB) (userId : Nat) : Option OTPRecord :=
  mostRecentIn (db.otps.filter (fun r => r.userId == userId))

namespace AuthController

/-- The signup payload of the unified auth controller (identity fields not
used by the claims are omitted from the embedding). -/
structure SignupReq where
  username : String
  email : String
  contactNo : String
  password : String
  confirmPassword : String
  role : Role
deriving DecidableEq, Repr

/-- `signup` of the unified auth controller: role and password-confirmation
validation, duplicate check distinguishing unverified duplicates, account
creation with `isVerified: false`, and creation of one OTP record expiring
5 minutes (300000 ms) after `now`. `otpCode` is the value of
`philsmsService.generateOTP()`; `newAccountId` / `newOtpId` are the fresh
document ids; SMS delivery is external and cannot fail the call. -/
def signup (db : DB) (now : Int) (req : SignupReq)
    (newAccountId newOtpId : Nat) (otpCode : String) :
    Except ApiError (DB × Account) :=
  if req.role ≠ .buyer ∧ req.role ≠ .seller then
    .error (.badRequest "Role must be either 'buyer' or 'seller'")
  else if req.password ≠ req.confirmPassword then
    .error (.badRequest "Passwords do not match")
  else
    match db.accounts.find? (fun a =>
        a.username == (lowerStr req.username) ||
        a.email == (lowerStr req.email) ||
        a.contactNo == req.contactNo) with
    | some existing =>
      if ¬ existing.isVerified then
        .error (.conflict
          "Account exists but is not verified. Please verify your phone number first.")
      else
        .error (.conflict
          "Account with the provided username, email, or contact number already exists")
    | none =>
      let account := createAccount newAccountId (lowerStr req.username)
        (lowerStr req.email) req.contactNo req.password req.role false
      let otpRec : OTPRecord :=
        { id := newOtpId
          userId := newAccountId
          otp := otpCode
          expiresAt := now + 5 * 60 * 1000
          createdAt := now }
      .ok ({ db with
              accounts := db.accounts ++ [account]
              otps := db.otps ++ [otpRec] }, account)

/-- `verifyOTP` of the unified auth controller: NotFound when no account
has the contact number, BadRequest when already verified, BadRequest when
no OTP record exists for the account, BadRequest when the most recent
record does not validate (mismatch or expired); on success the account is
saved with `isVerified = true`, the used OTP record is deleted by id, and
a session token is issued. -/
def verifyOTP (db : DB) (now : Int) (contactNo otpInput : String) :
    Except ApiError (DB × Token) :=
  match db.findAccountByContact contactNo with
  | none => .error (.notFound "Account not found with this contact number")
  | some account =>
    if account.isVerified then
      .error (.badRequest "Account is already verified")
    else
      match db.mostRecentOTPFor account.id with
      | none => .error (.badRequest "No OTP found. Please request a new one")
      | some otpRecord =>
        if ¬ PhilSMSService.verifyOTP otpRecord.otp otpInput otpRecord.expiresAt now then
          .error (.badRequest "Invalid or expired OTP")
        else
          let db1 := db.saveAccount
            (accountPreSaveHook false { account with isVerified := true })
          let db2 := { db1 with
            otps := db1.otps.filter (fun r => r.id ≠ otpRecord.id) }
          .ok (db2, generateToken account.id)

/-- `login` of the unified auth controller. -/
def login (db : DB) (identifier password : String) : Except ApiError Token :=
  match findAccountByIdentifier db identifier with
  | none => .error (.notFound "Account does not exist")
  | some account =>
    if ¬ account.isVerified then
      .error (.unauthenticated
        "Account not verified. Please verify your phone number first.")
    else if account.role = .seller ∧ account.sellerApprovalStatus = some .pending then
      .error (.unauthenticated
        "Your seller account is pending approval. Please wait for administrator review.")
    else if account.role = .seller ∧ account.sellerApprovalStatus = some .rejected then
      .error (.unauthenticated
        "Your seller account has been rejected. Please contact support for more information.")
    else if ¬ comparePassword password account.password then
      .error (.unauthenticated "Invalid username/email/phone number and password")
    else
      .ok (generateToken account.id)

/-- `resendOTP` of the unified auth controller: NotFound / BadRequest as in
`verifyOTP`; TooManyRequests when the most recent OTP record for the
account is unexpired (the throw happens before any write, so the OTP
collection is untouched on every error); otherwise `OTP.deleteMany` for
the account followed by creation of one fresh record expiring 5 minutes
after `now`. -/
def resendOTP (db : DB) (now : Int) (contactNo : String)
    (newOtpCode : String) (newOtpId : Nat) : Except ApiError DB :=
  match db.findAccountByContact contactNo with
  | none => .error (.notFound "Account not found with this contact number")
  | some account =>
    if account.isVerified then
      .error (.badRequest "Account is already verified")
    else
      let issue : DB :=
        { db with otps :=
            db.otps.filter (fun r => r.userId ≠ account.id) ++
            [{ id := newOtpId
               userId := account.id
               otp := newOtpCode
               expiresAt := now + 5 * 60 * 1000
               createdAt := now }] }
      match db.mostRecentOTPFor account.id with
      | some lastOtp =>
        if lastOtp.expiresAt > now then
          .error (.tooManyRequests "Please wait before requesting a new OTP")
        else
          .ok issue
      | none => .ok issue

/-- The `createAdminAccount` payload (superadmin-only endpoint). -/
structure AdminReq where
  username : String
  email : String
  contactNo : String
  password : String
  confirmPassword : String
deriving DecidableEq, Repr

/-- `createAdminAccount` of the admin-management controller: password
confirmation, three uniqueness checks, then `Account.create` with
`role: "admin"` and `isVerified: true`; no OTP is generated and no SMS is
sent. -/
def createAdminAccount (db : DB) (req : AdminReq) (newId : Nat) :
    Except ApiError (DB × Account) :=
  if req.password ≠ req.confirmPassword then
    .error (.badRequest "Passwords do not match")
  else if db.accounts.any (fun a => a.username == (lowerStr req.username)) then
    .error (.conflict "Username already exists")
  else if db.accounts.any (fun a => a.email == (lowerStr req.email)) then
    .error (.conflict "Email already exists")
  else if db.accounts.any (fun a => a.contactNo == req.contactNo) then
    .error (.conflict "Contact number already exists")
  else
    let account := createAccount newId (lowerStr req.username) (lowerStr req.email)
      req.contactNo req.password .admin true
    .ok ({ db with accounts := db.accounts ++ [account] }, account)

end AuthController

/-- `cartSchema.methods.findItem`: the first cart line referencing the
item. -/
def Cart.findItem (c : Cart) (itemId : Nat) : Option CartLine :=
  c.items.find? (fun l => l.item == itemId)

/-- Mutation of the first line matching an item id, as JS `Array.find`
followed by an in-place field update performs. -/
def updateFirstLine (itemId : Nat) (f : CartLine → CartLine) :
    List CartLine → List CartLine
  | [] => []
  | l :: rest =>
    if l.item == itemId then f l :: rest
    else l :: updateFirstLine itemId f rest

/-- `cartSchema.methods.addItem`: merge into the existing line for the item
(quantities sum) or push a new line. -/
def Cart.addItem (c : Cart) (itemId : Nat) (quantity : ℚ) : Cart :=
  match c.findItem itemId with
  | some _ =>
    { c with items :=
        updateFirstLine itemId (fun l => { l with quantity := l.quantity + quantity }) c.items }
  | none => { c with items := c.items ++ [{ item := itemId, quantity := quantity }] }

/-- `cartSchema.methods.updateItemQuantity`: set the quantity of the
existing line, if any. -/
def Cart.updateItemQuantity (c : Cart) (itemId : Nat) (quantity : ℚ) : Cart :=
  { c with items := updateFirstLine itemId (fun l => { l with quantity := quantity }) c.items }

namespace CartController

/-- `addToCart` of `controllers/cartController.js`: quantity validation,
item lookup, active / stock / own-item checks, lazy cart creation, and
merge-or-push against the existing line with a re-check of the merged
quantity against live stock. -/
def addToCart (db : DB) (userId itemId : Nat) (quantity : ℚ) :
    Except ApiError DB :=
  if quantity ≤ 0 then
    .error (.badRequest "Quantity must be a positive number")
  else
    match db.findItemById itemId with
    | none => .error (.notFound "Item not found")
    | some item =>
      if ¬ item.isActive then
        .error (.badRequest "Item is no longer available")
      else if quantity > item.quantity then
        .error (.badRequest "Insufficient quantity available")
      else if item.seller = userId then
        .error (.badRequest "You cannot add your own items to cart")
      else
        let cart := (db.findCartByUser userId).getD { user := userId, items := [] }
        match cart.findItem itemId with
        | some existingCartItem =>
          let newQuantity := existingCartItem.quantity + quantity
          if newQuantity > item.quantity then
            .error (.badRequest "Total quantity exceeds available stock")
          else
            .ok (db.saveCart (cart.updateItemQuantity itemId newQuantity))
        | none =>
          .ok (db.saveCart (cart.addItem itemId quantity))

/-- The `cartTotal` computed by `getCart`: a running sum over the cart's
lines in which a line whose populated item is null (the referenced item no
longer resolves) contributes nothing. -/
def getCartTotal (db : DB) (cart : Cart) : ℚ :=
  cart.items.foldl
    (fun total line =>
      match db.findItemById line.item with
      | some item => total + item.itemPrice * line.quantity
      | none => total)
    0

end CartController

/-- Account states reachable through the account-writing handlers:
creation by `signup` (buyer or seller) or `createAdminAccount` (admin),
the `verifyOTP` save, the `updateSellerApprovalStatus` save (requires a
pending seller, stores the approver and timestamp), and profile-updating
saves that touch only identity fields. Each save runs the pre-save hook
with the `role` path unmodified except creation, which sets `role`
explicitly. -/
inductive ReachableAccount : Account → Prop
  | signup (id : Nat) (username email contactNo password : String) (role : Role)
      (hrole : role = .buyer ∨ role = .seller) :
      ReachableAccount (createAccount id username email contactNo password role false)
  | adminCreated (id : Nat) (username email contactNo password : String) :
      ReachableAccount (createAccount id username email contactNo password .admin true)
  | otpVerified (a : Account) (h : ReachableAccount a) :
      ReachableAccount (accountPreSaveHook false { a with isVerified := true })
  | approvalUpdated (a : Account) (h : ReachableAccount a)
      (hrole : a.role = .seller)
      (hpending : a.sellerApprovalStatus = some .pending)
      (status : ApprovalStatus)
      (hstatus : status = .approved ∨ status = .rejected)
      (approver : Nat) (t : Int) :
      ReachableAccount (accountPreSaveHook false
        { a with
          sellerApprovalStatus := some status
          approvedBy := some approver
          approvedAt := some t })
  | profileUpdated (a : Account) (h : ReachableAccount a)
      (username email contactNo : String) :
      ReachableAccount (accountPreSaveHook false
        { a with username := username, email := email, contactNo := contactNo })

/-!  Generic helper lemmas about the list-backed collections. -/

/-- Replacing, by id, the document that `find?` locates makes the same
lookup return the replacement. -/
theorem find_map_replace {α : Type} (idOf : α → Nat) (i : Nat) (b : α)
    (l : List α) (a : α)
    (h : l.find? (fun x => idOf x == i) = some a) (hb : idOf b = idOf a) :
    (l.map (fun x => if idOf x == idOf b then b else x)).find?
      (fun x => idOf x == i) = some b := by
  induction l with
  | nil => simp at h
  | cons x xs ih =>
    by_cases hx : idOf x = i
    · rw [List.find?_cons_of_pos _ (by simp [hx])] at h
      have hax : x = a := by injection h
      subst hax
      have hcond : (idOf x == idOf b) = true := by simp [hb]
      simp only [List.map_cons, hcond, if_true]
      exact List.find?_cons_of_pos _ (by simp [hb, hx])
    · rw [List.find?_cons_of_neg _ (by simp [hx])] at h
      have hai : idOf a = i := by
        have := List.find?_some h
        simpa using this
      have hcond : (idOf x == idOf b) = false := by
        simp only [hb, hai, beq_eq_false_iff_ne, ne_eq]
        exact hx
      simp only [List.map_cons, hcond, if_false]
      rw [List.find?_cons_of_neg _ (by simp [hx])]
      exact ih h

/-- `mostRecentIn` returns `none` exactly on the empty record list. -/
theorem mostRecentIn_eq_none {l : List OTPRecord} :
    mostRecentIn l = none ↔ l = [] := by
  cases l with
  | nil => simp [mostRecentIn]
  | cons r rs =>
    simp only [mostRecentIn]
    cases mostRecentIn rs with
    | none => simp
    | some best =>
      by_cases hgt : best.createdAt > r.createdAt <;> simp [hgt]

/-- `mostRecentIn` returns a member of the record list. -/
theorem mostRecentIn_mem {l : List OTPRecord} {r : OTPRecord}
    (h : mostRecentIn l = some r) : r ∈ l := by
  induction l with
  | nil => simp [mostRecentIn] at h
  | cons x xs ih =>
    unfold mostRecentIn at h
    cases hrec : mostRecentIn xs with
    | none =>
      rw [hrec] at h
      simp only [] at h
      injection h with h
      simp [h.symm]
    | some best =>
      rw [hrec] at h
      simp only [] at h
      by_cases hgt : best.createdAt > x.createdAt
      · rw [if_pos hgt] at h
        injection h with h
        subst h
        exact List.mem_cons_of_mem _ (ih hrec)
      · rw [if_neg hgt] at h
        injection h with h
        simp [h.symm]

/-- `mostRecentIn` returns a record with maximal `createdAt`. -/
theorem mostRecentIn_max :
    ∀ (l : List OTPRecord) (r : OTPRecord), mostRecentIn l = some r →
      ∀ x ∈ l, x.createdAt ≤ r.createdAt := by
  intro l
  induction l with
  | nil => intro r h; simp [mostRecentIn] at h
  | cons y ys ih =>
    intro r h x hx
    unfold mostRecentIn at h
    cases hrec : mostRecentIn ys with
    | none =>
      rw [hrec] at h
      simp only [] at h
      injection h with h
      subst h
      rcases List.mem_cons.mp hx with hxy | hxys
      · exact le_of_eq (by rw [hxy])
      · exact absurd (mostRecentIn_eq_none.mp hrec ▸ hxys) (List.not_mem_nil x)
    | some best =>
      rw [hrec] at h
      simp only [] at h
      by_cases hgt : best.createdAt > y.createdAt
      · rw [if_pos hgt] at h
        injection h with h
        subst h
        rcases List.mem_cons.mp hx with hxy | hxys
        · exact le_of_lt (by rw [hxy]; exact hgt)
        · exact ih _ hrec x hxys
      · rw [if_neg hgt] at h
        injection h with h
        subst h
        rcases List.mem_cons.mp hx with hxy | hxys
        · exact le_of_eq (by rw [hxy])
        · exact le_trans (ih best hrec x hxys) (le_of_not_lt hgt)

/-- `updateFirstLine` leaves the item ids of the lines unchanged whenever
the update function does. -/
theorem updateFirstLine_map_item (itemId : Nat) (f : CartLine → CartLine)
    (hf : ∀ l, (f l).item = l.item) (ls : List CartLine) :
    (updateFirstLine itemId f ls).map CartLine.item = ls.map CartLine.item := by
  induction ls with
  | nil => rfl
  | cons l rest ih =>
    by_cases hl : l.item = itemId
    · simp [updateFirstLine, hl, hf]
    · simp [updateFirstLine, hl, ih]

/-- The first line that `find?` locates is the one `updateFirstLine`
rewrites. -/
theorem updateFirstLine_find (itemId : Nat) (f : CartLine → CartLine)
    (hf : ∀ l, (f l).item = l.item) (ls : List CartLine) (l : CartLine)
    (h : ls.find? (fun x => x.item == itemId) = some l) :
    (updateFirstLine itemId f ls).find? (fun x => x.item == itemId) = some (f l) := by
  induction ls with
  | nil => simp at h
  | cons x xs ih =>
    by_cases hx : x.item = itemId
    · rw [List.find?_cons_of_pos _ (by simp [hx])] at h
      have hxl : x = l := by injection h
      subst hxl
      have hrw : updateFirstLine itemId f (x :: xs) = f x :: xs := by
        simp [updateFirstLine, hx]
      rw [hrw]
      exact List.find?_cons_of_pos _ (by simp [hf, hx])
    · rw [List.find?_cons_of_neg _ (by simp [hx])] at h
      have hrw : updateFirstLine itemId f (x :: xs) = x :: updateFirstLine itemId f xs := by
        simp [updateFirstLine, hx]
      rw [hrw, List.find?_cons_of_neg _ (by simp [hx])]
      exact ih h

/-- The running `cartTotal` fold equals the sum over the resolvable lines. -/
theorem cartTotal_foldl_eq (db : DB) (ls : List CartLine) (init : ℚ) :
    (ls.foldl
      (fun total line =>
        match db.findItemById line.item with
        | some item => total + item.itemPrice * line.quantity
        | none => total)
      init)
    = init + (ls.filterMap (fun l => (db.findItemById l.item).map
        (fun item => item.itemPrice * l.quantity))).sum := by
  induction ls generalizing init with
  | nil => simp
  | cons l rest ih =>
    cases hfind : db.findItemById l.item with
    | none => simp [List.foldl_cons, hfind, List.filterMap_cons, ih]
    | some item =>
      simp only [List.foldl_cons, hfind, List.filterMap_cons, Option.map_some',
        List.sum_cons, ih]
      ring

/-- The pre-save hook only ever touches the three approval fields: every
other field of the account is preserved. -/
theorem accountPreSaveHook_fields (m : Bool) (a : Account) :
    (accountPreSaveHook m a).id = a.id ∧
    (accountPreSaveHook m a).username = a.username ∧
    (accountPreSaveHook m a).email = a.email ∧
    (accountPreSaveHook m a).contactNo = a.contactNo ∧
    (accountPreSaveHook m a).password = a.password ∧
    (accountPreSaveHook m a).role = a.role ∧
    (accountPreSaveHook m a).isVerified = a.isVerified := by
  unfold accountPreSaveHook
  cases m
  · simp
  · by_cases h : a.role = .seller <;> simp [h]

/-!  Claim C8. -/

/-- Claim C8: `generateOTP` always returns a 6-digit code — for every
random draw `r` with `0 ≤ r < 1` the generated numeric value lies in
`100000..999999` and so has exactly six decimal digits — and
`verifyOTP storedOTP inputOTP expiresAt` (evaluated at time `now`) returns
`true` iff the codes are equal and `now` is not past `expiresAt`; in
particular a matching code is rejected once `expiresAt` has passed. -/
theorem generateOTP_six_digits_and_verifyOTP_iff :
    (∀ r : ℚ, 0 ≤ r → r < 1 →
      100000 ≤ PhilSMSService.generateOTP r ∧
      PhilSMSService.generateOTP r ≤ 999999 ∧
      (Nat.digits 10 (PhilSMSService.generateOTP r)).length = 6) ∧
    (∀ (storedOTP inputOTP : String) (expiresAt now : Int),
      PhilSMSService.verifyOTP storedOTP inputOTP expiresAt now = true ↔
        storedOTP = inputOTP ∧ now ≤ expiresAt) := by
  constructor
  · intro r h0 h1
    unfold PhilSMSService.generateOTP
    have hlo : (100000 : ℤ) ≤ ⌊(100000 : ℚ) + r * 900000⌋ := by
      rw [Int.le_floor]
      push_cast
      nlinarith
    have hhi : ⌊(100000 : ℚ) + r * 900000⌋ < 1000000 := by
      rw [Int.floor_lt]
      push_cast
      nlinarith
    have hlo' : 100000 ≤ (⌊(100000 : ℚ) + r * 900000⌋).toNat := by omega
    have hhi' : (⌊(100000 : ℚ) + r * 900000⌋).toNat ≤ 999999 := by omega
    refine ⟨hlo', hhi', ?_⟩
    rw [Nat.digits_len 10 _ (by norm_num) (by omega)]
    have h5 : (10 : ℕ) ^ 5 = 100000 := by norm_num
    have h6 : (10 : ℕ) ^ (5 + 1) = 1000000 := by norm_num
    have hlog : Nat.log 10 (⌊(100000 : ℚ) + r * 900000⌋).toNat = 5 := by
      apply Nat.log_eq_of_pow_le_of_lt_pow
      · omega
      · omega
    rw [hlog]
  · intro storedOTP inputOTP expiresAt now
    unfold PhilSMSService.verifyOTP
    simp only [Bool.and_eq_true, Bool.not_eq_true', decide_eq_false_iff_not,
      not_lt, beq_iff_eq]
    exact ⟨fun h => ⟨h.2, h.1⟩, fun h => ⟨h.2, h.1⟩⟩

/-- Witness for C8 at `r = 1/2` and the spec's own example of a matching
code submitted one second after its 300 s expiry. -/
theorem generateOTP_six_digits_and_verifyOTP_iff_witness :
    (100000 ≤ PhilSMSService.generateOTP (1/2) ∧
     PhilSMSService.generateOTP (1/2) ≤ 999999 ∧
     (Nat.digits 10 (PhilSMSService.generateOTP (1/2))).length = 6) ∧
    (PhilSMSService.verifyOTP "483920" "483920" 300000 301000 = true ↔
      "483920" = "483920" ∧ (301000 : Int) ≤ 300000) :=
  ⟨generateOTP_six_digits_and_verifyOTP_iff.1 (1/2) (by norm_num) (by norm_num),
   generateOTP_six_digits_and_verifyOTP_iff.2 "483920" "483920" 300000 301000⟩

/-!  Claim C1. -/

/-- Claim C1: when the item exists with quantity `s` and price `p`, is
active, the caller is the owning seller, and the buyer exists, then for
`0 < q ≤ s` the sale succeeds, the receipt has `quantitySold = q` and
`totalAmount = p * q`, the stored item's quantity becomes `s - q`, and its
`isActive` ends up false exactly when `s - q ≤ 0`; for `q > s` the call is
rejected with BadRequest and the stored item is unchanged. -/
theorem sellItem_spec (db : DB) (callerId itemId : Nat) (q : ℚ)
    (buyerId : Nat) (notes : String) (item : Item) (s p : ℚ)
    (hfind : db.findItemById itemId = some item)
    (hs : item.quantity = s) (hp : item.itemPrice = p)
    (hactive : item.isActive = true)
    (howner : item.seller = callerId)
    (hbuyer : (db.findAccountById buyerId).isSome = true) :
    (0 < q → q ≤ s →
      (sellItem db ⟨callerId, itemId, q, buyerId, notes⟩).snd = .succeeded ∧
      (sellItem db ⟨callerId, itemId, q, buyerId, notes⟩).fst.receipts
        = db.receipts ++ [mkReceipt item ⟨callerId, itemId, q, buyerId, notes⟩] ∧
      (mkReceipt item ⟨callerId, itemId, q, buyerId, notes⟩).quantitySold = q ∧
      (mkReceipt item ⟨callerId, itemId, q, buyerId, notes⟩).totalAmount = p * q ∧
      (∃ item' : Item,
        (sellItem db ⟨callerId, itemId, q, buyerId, notes⟩).fst.findItemById itemId
          = some item' ∧
        item'.quantity = s - q ∧
        (item'.isActive = false ↔ s - q ≤ 0))) ∧
    (q > s →
      sellItem db ⟨callerId, itemId, q, buyerId, notes⟩
        = (db, .failed (.badRequest "Insufficient quantity available")) ∧
      (db.findItemById itemId).map Item.quantity = some s) := by
  obtain ⟨buyer, hbuyerEq⟩ := Option.isSome_iff_exists.mp hbuyer
  constructor
  · intro hq0 hqs
    have hnotgt : ¬ (q > item.quantity) := by
      rw [hs]
      exact not_lt.mpr hqs
    have hstart : sellStep db ⟨callerId, itemId, q, buyerId, notes⟩ .start
        = (db, .checked item) := by
      simp [sellStep, hfind, howner, hactive, hnotgt, hbuyerEq]
    have hrun : sellItem db ⟨callerId, itemId, q, buyerId, notes⟩ =
        ((db.saveReceipt (mkReceipt item ⟨callerId, itemId, q, buyerId, notes⟩)).saveItem
          { item with
              quantity := item.quantity - q
              isActive := if item.quantity - q ≤ 0 then false else item.isActive },
         .succeeded) := by
      unfold sellItem
      rw [hstart]
      rfl
    refine ⟨by rw [hrun], ?_, rfl, by simp [mkReceipt, hp, mul_comm], ?_⟩
    · rw [hrun]
      rfl
    · refine ⟨{ item with
          quantity := item.quantity - q
          isActive := if item.quantity - q ≤ 0 then false else item.isActive },
        ?_, by simp [hs], ?_⟩
      · rw [hrun]
        exact find_map_replace Item.id itemId _ db.items item hfind rfl
      · by_cases hle : item.quantity - q ≤ 0
        · simp [hle, hs ▸ hle]
        · have : ¬ (s - q ≤ 0) := by rw [← hs]; exact hle
          simp [hle, hactive, this]
  · intro hgt
    have hgt' : q > item.quantity := by rw [hs]; exact hgt
    constructor
    · simp [sellItem, sellStep, hfind, howner, hactive, hgt']
    · rw [hfind]
      simp [hs]

/-- Concrete fixtures for the C1 witness: one active item with stock 5 at
price 2 owned by seller 10, and one buyer account. -/
def itemC1 : Item :=
  { id := 1, seller := 10, itemType := "fish", itemName := "tuna"
    itemPrice := 2, quantity := 5, unit := "kg", image := "img"
    imagePublicId := "pid", isActive := true }

/-- The buyer account of the C1 witness database. -/
def buyerC1 : Account :=
  { id := 20, username := "buyer", email := "b@example.com"
    contactNo := "9000000001", password := "pw", role := .buyer
    isVerified := true, sellerApprovalStatus := none
    approvedBy := none, approvedAt := none }

/-- The C1 witness database. -/
def dbC1 : DB :=
  { accounts := [buyerC1], otps := [], items := [itemC1], receipts := [], carts := [] }

/-- Witness for C1: selling the whole stock of 5 at the concrete database
succeeds. -/
theorem sellItem_spec_witness :
    (sellItem dbC1 ⟨10, 1, 5, 20, ""⟩).snd = SellPhase.succeeded :=
  ((sellItem_spec dbC1 10 1 5 20 "" itemC1 5 2 rfl rfl rfl rfl rfl rfl).1
    (by norm_num) (by norm_num)).1

/-!  Claim C2. -/

/-- Fixture database for C2: one active item with stock 5 at price 2 owned
by seller 10, plus the buyer account 20. -/
def dbC2 : DB :=
  { accounts := [{ id := 20, username := "buyer2", email := "b2@example.com"
                   contactNo := "9000000002", password := "pw", role := .buyer
                   isVerified := true, sellerApprovalStatus := none
                   approvedBy := none, approvedAt := none }]
    otps := []
    items := [{ id := 1, seller := 10, itemType := "fish", itemName := "tuna"
                itemPrice := 2, quantity := 5, unit := "kg", image := "img"
                imagePublicId := "pid", isActive := true }]
    receipts := []
    carts := [] }

/-- Claim C2 is violated by the code: `sellItem` performs `receipt.save()`
and `item.save()` as two separate writes with no transaction, so the
execution in which the item write fails right after the receipt write
succeeded persists a Receipt for item 1 (with `quantitySold = 3`) while
the item's stock is still 5 — a state the claim says must never exist. -/
theorem sell_receipt_persisted_without_stock_decrement :
    (sellItemItemSaveFails dbC2 ⟨10, 1, 3, 20, ""⟩).fst.receipts.map
      (fun r => (r.item, r.quantitySold)) = [(1, 3)] ∧
    ((sellItemItemSaveFails dbC2 ⟨10, 1, 3, 20, ""⟩).fst.findItemById 1).map
      Item.quantity = some 5 :=
  ⟨rfl, rfl⟩

/-!  Claim C3. -/

/-- Fixture session for C3: two sell requests against the same item with
stock 5, for quantities 3 and 4 — each fits individually, their sum does
not. -/
def sessC3 : SellSession :=
  { db := { accounts := [{ id := 20, username := "buyer3", email := "b3@example.com"
                           contactNo := "9000000003", password := "pw", role := .buyer
                           isVerified := true, sellerApprovalStatus := none
                           approvedBy := none, approvedAt := none }]
            otps := []
            items := [{ id := 1, seller := 10, itemType := "fish", itemName := "tuna"
                        itemPrice := 2, quantity := 5, unit := "kg", image := "img"
                        imagePublicId := "pid", isActive := true }]
            receipts := []
            carts := [] }
    reqA := ⟨10, 1, 3, 20, ""⟩
    reqB := ⟨10, 1, 4, 20, ""⟩
    phaseA := .start
    phaseB := .start }

/-- Claim C3 is violated by the code: `sellItem` checks stock on a
snapshot read by `Item.findById` and later writes back a quantity computed
from that snapshot, so in the interleaving where both requests read before
either writes, BOTH requests succeed (no insufficient-quantity rejection
for either), both receipts are recorded (3 + 4 = 7 sold out of stock 5),
and one decrement is lost (final stock 1). -/
theorem concurrent_sells_can_both_succeed :
    (runSched sessC3 [true, false, true, true, false, false]).phaseA
        = SellPhase.succeeded ∧
    (runSched sessC3 [true, false, true, true, false, false]).phaseB
        = SellPhase.succeeded ∧
    ((runSched sessC3 [true, false, true, true, false, false]).db.findItemById 1).map
        Item.quantity = some ((5 : ℚ) - 4) ∧
    ((5 : ℚ) - 4 = 1) ∧
    (runSched sessC3 [true, false, true, true, false, false]).db.receipts.map
        Receipt.quantitySold = [3, 4] := by
  refine ⟨rfl, rfl, rfl, by norm_num, rfl⟩

/-!  Claim C4. -/

/-- Fixture for the C4 counterexample: a single already-verified account. -/
def dbC4 : DB :=
  { accounts := [{ id := 30, username := "vuser", email := "v@example.com"
                   contactNo := "9000000004", password := "pw", role := .buyer
                   isVerified := true, sellerApprovalStatus := none
                   approvedBy := none, approvedAt := none }]
    otps := [], items := [], receipts := [], carts := [] }

/-- C4 as stated is false at a concrete input: submitting an OTP for an
already-verified account yields BadRequest ("Account is already
verified"), not the Conflict the claim requires. -/
theorem verifyOTP_already_verified_is_badRequest_not_conflict :
    AuthController.verifyOTP dbC4 0 "9000000004" "123456"
      = .error (.badRequest "Account is already verified") ∧
    ∀ msg, AuthController.verifyOTP dbC4 0 "9000000004" "123456"
      ≠ .error (.conflict msg) := by
  refine ⟨rfl, ?_⟩
  intro msg h
  rw [show AuthController.verifyOTP dbC4 0 "9000000004" "123456"
      = .error (.badRequest "Account is already verified") from rfl] at h
  injection h with h
  exact ApiError.noConfusion h

/-- C4 amended (the already-verified failure is BadRequest, not Conflict;
everything else as claimed): `verifyOTP(contactNo, code)` fails NotFound
when no account has the contact number; fails BadRequest when the account
is already verified; fails BadRequest when no OTP record exists for the
account, when the code differs from the most recent record, or when that
record is expired; and on success it sets the account's `isVerified` to
true, deletes the OTP record, and returns a session token bound to the
account (verification doubles as login). -/
theorem verifyOTP_spec (db : DB) (now : Int) (contactNo otpInput : String) :
    (db.findAccountByContact contactNo = none →
      AuthController.verifyOTP db now contactNo otpInput
        = .error (.notFound "Account not found with this contact number")) ∧
    (∀ account, db.findAccountByContact contactNo = some account →
      (account.isVerified = true →
        AuthController.verifyOTP db now contactNo otpInput
          = .error (.badRequest "Account is already verified")) ∧
      (account.isVerified = false →
        (db.mostRecentOTPFor account.id = none →
          AuthController.verifyOTP db now contactNo otpInput
            = .error (.badRequest "No OTP found. Please request a new one")) ∧
        (∀ otpRecord, db.mostRecentOTPFor account.id = some otpRecord →
          ((otpRecord.otp ≠ otpInput ∨ now > otpRecord.expiresAt) →
            AuthController.verifyOTP db now contactNo otpInput
              = .error (.badRequest "Invalid or expired OTP")) ∧
          (otpRecord.otp = otpInput → now ≤ otpRecord.expiresAt →
            ∃ db2, AuthController.verifyOTP db now contactNo otpInput
                = .ok (db2, generateToken account.id) ∧
              db2.accounts = db.accounts.map (fun x =>
                if x.id == account.id then { account with isVerified := true } else x) ∧
              db2.otps = db.otps.filter (fun r => r.id ≠ otpRecord.id))))) := by
  constructor
  · intro hnone
    simp [AuthController.verifyOTP, hnone]
  · intro account hacc
    constructor
    · intro hver
      simp [AuthController.verifyOTP, hacc, hver]
    · intro hunver
      constructor
      · intro hno
        simp [AuthController.verifyOTP, hacc, hunver, hno]
      · intro otpRecord hrec
        constructor
        · intro hbad
          have hfalse : PhilSMSService.verifyOTP otpRecord.otp otpInput
              otpRecord.expiresAt now = false := by
            rcases hbad with hne | hexp
            · simp [PhilSMSService.verifyOTP, hne]
            · simp [PhilSMSService.verifyOTP, hexp]
          simp [AuthController.verifyOTP, hacc, hunver, hrec, hfalse]
        · intro heq hle
          have htrue : PhilSMSService.verifyOTP otpRecord.otp otpInput
              otpRecord.expiresAt now = true := by
            simp [PhilSMSService.verifyOTP, heq, not_lt.mpr hle]
          have hres : AuthController.verifyOTP db now contactNo otpInput
              = .ok ({ db.saveAccount { account with isVerified := true } with
                    otps := db.otps.filter (fun r => r.id ≠ otpRecord.id) },
                  generateToken account.id) := by
            simp [AuthController.verifyOTP, hacc, hunver, hrec, htrue,
              accountPreSaveHook, DB.saveAccount]
          exact ⟨_, hres, rfl, rfl⟩

/-- Fixture for the C4 witness: an unverified account whose single OTP
record `"123456"` expires at time 300000. -/
def dbC4w : DB :=
  { accounts := [{ id := 40, username := "wuser", email := "w@example.com"
                   contactNo := "9000000005", password := "pw", role := .buyer
                   isVerified := false, sellerApprovalStatus := none
                   approvedBy := none, approvedAt := none }]
    otps := [{ id := 7, userId := 40, otp := "123456"
               expiresAt := 300000, createdAt := 0 }]
    items := [], receipts := [], carts := [] }

/-- Witness for the amended C4: the success branch at a concrete database,
with every hypothesis discharged. -/
theorem verifyOTP_spec_witness :
    ∃ db2, AuthController.verifyOTP dbC4w 10 "9000000005" "123456"
        = .ok (db2, generateToken 40) ∧
      db2.accounts = dbC4w.accounts.map (fun x =>
        if x.id == 40 then
          { id := 40, username := "wuser", email := "w@example.com"
            contactNo := "9000000005", password := "pw", role := .buyer
            isVerified := true, sellerApprovalStatus := none
            approvedBy := none, approvedAt := none }
        else x) ∧
      db2.otps = dbC4w.otps.filter (fun r => r.id ≠ 7) := by
  have h := (((verifyOTP_spec dbC4w 10 "9000000005" "123456").2
    { id := 40, username := "wuser", email := "w@example.com"
      contactNo := "9000000005", password := "pw", role := .buyer
      isVerified := false, sellerApprovalStatus := none
      approvedBy := none, approvedAt := none } rfl).2 rfl).2
    { id := 7, userId := 40, otp := "123456", expiresAt := 300000, createdAt := 0 }
    rfl
  exact (h.2 rfl (by norm_num))

/-!  Claim C5. -/

/-- Claim C5: for an existing unverified account, `resendOTP` (a) fails
with TooManyRequests when an unexpired OTP record still exists for the
account — the throw precedes every write, so no record is created or
deleted — and (b) otherwise deletes every record of the account and
creates exactly one fresh record expiring 5 minutes (300000 ms) after
`now`, so the previous code can no longer verify. The `hmono` hypothesis
states that creation order matches expiry order among the account's
records, which holds of every record the handlers create (each expires
exactly 300000 ms after its creation time). -/
theorem resendOTP_spec (db : DB) (now : Int) (contactNo newCode : String)
    (newId : Nat) (account : Account)
    (hacc : db.findAccountByContact contactNo = some account)
    (hunver : account.isVerified = false)
    (hmono : ∀ r ∈ db.otps, ∀ r2 ∈ db.otps, r.userId = account.id →
      r2.userId = account.id → r.createdAt ≤ r2.createdAt →
      r.expiresAt ≤ r2.expiresAt) :
    ((∃ r ∈ db.otps, r.userId = account.id ∧ r.expiresAt > now) →
      AuthController.resendOTP db now contactNo newCode newId
        = .error (.tooManyRequests "Please wait before requesting a new OTP")) ∧
    ((∀ r ∈ db.otps, r.userId = account.id → r.expiresAt ≤ now) →
      ∃ db2, AuthController.resendOTP db now contactNo newCode newId = .ok db2 ∧
        db2.otps.filter (fun r => r.userId == account.id)
          = [{ id := newId, userId := account.id, otp := newCode,
               expiresAt := now + 5 * 60 * 1000, createdAt := now }] ∧
        db2.otps = db.otps.filter (fun r => r.userId ≠ account.id) ++
          [{ id := newId, userId := account.id, otp := newCode,
             expiresAt := now + 5 * 60 * 1000, createdAt := now }]) := by
  constructor
  · rintro ⟨r, hrmem, hruid, hrexp⟩
    have hrfil : r ∈ db.otps.filter (fun x => x.userId == account.id) := by
      apply List.mem_filter.mpr
      exact ⟨hrmem, by simp [hruid]⟩
    cases hbest : db.mostRecentOTPFor account.id with
    | none =>
      exfalso
      have : db.otps.filter (fun x => x.userId == account.id) = [] :=
        mostRecentIn_eq_none.mp hbest
      rw [this] at hrfil
      exact List.not_mem_nil r hrfil
    | some best =>
      have hbestfil : best ∈ db.otps.filter (fun x => x.userId == account.id) :=
        mostRecentIn_mem hbest
      have hbestmem : best ∈ db.otps := (List.mem_filter.mp hbestfil).1
      have hbestuid : best.userId = account.id := by
        have := (List.mem_filter.mp hbestfil).2
        simpa using this
      have hcreated : r.createdAt ≤ best.createdAt :=
        mostRecentIn_max _ best hbest r hrfil
      have hbestexp : best.expiresAt > now :=
        lt_of_lt_of_le hrexp (hmono r hrmem best hbestmem hruid hbestuid hcreated)
      simp [AuthController.resendOTP, hacc, hunver, hbest, hbestexp]
  · intro hall
    have hissue : AuthController.resendOTP db now contactNo newCode newId
        = .ok { db with otps :=
            db.otps.filter (fun r => r.userId ≠ account.id) ++
            [{ id := newId, userId := account.id, otp := newCode,
               expiresAt := now + 5 * 60 * 1000, createdAt := now }] } := by
      cases hbest : db.mostRecentOTPFor account.id with
      | none => simp [AuthController.resendOTP, hacc, hunver, hbest]
      | some best =>
        have hbestfil : best ∈ db.otps.filter (fun x => x.userId == account.id) :=
          mostRecentIn_mem hbest
        have hbestmem : best ∈ db.otps := (List.mem_filter.mp hbestfil).1
        have hbestuid : best.userId = account.id := by
          have := (List.mem_filter.mp hbestfil).2
          simpa using this
        have hbestexp : ¬ best.expiresAt > now :=
          not_lt.mpr (hall best hbestmem hbestuid)
        simp [AuthController.resendOTP, hacc, hunver, hbest, hbestexp]
    refine ⟨_, hissue, ?_, rfl⟩
    rw [List.filter_append]
    have h1 : (db.otps.filter (fun r => r.userId ≠ account.id)).filter
        (fun r => r.userId == account.id) = [] := by
      rw [List.filter_eq_nil_iff]
      intro r hr
      have := List.of_mem_filter hr
      simp at this
      simp [this]
    rw [h1]
    simp

/-- Fixture for the C5 witness: an unverified account whose only OTP
record expired at time 100. -/
def dbC5 : DB :=
  { accounts := [{ id := 50, username := "ruser", email := "r@example.com"
                   contactNo := "9000000006", password := "pw", role := .buyer
                   isVerified := false, sellerApprovalStatus := none
                   approvedBy := none, approvedAt := none }]
    otps := [{ id := 8, userId := 50, otp := "111111"
               expiresAt := 100, createdAt := 0 }]
    items := [], receipts := [], carts := [] }

/-- Witness for C5: resending at time 200 (after the expiry at 100)
succeeds and supersedes the old record. -/
theorem resendOTP_spec_witness :
    ∃ db2, AuthController.resendOTP dbC5 200 "9000000006" "222222" 9 = .ok db2 ∧
      db2.otps.filter (fun r => r.userId == 50)
        = [{ id := 9, userId := 50, otp := "222222"
             expiresAt := 200 + 5 * 60 * 1000, createdAt := 200 }] ∧
      db2.otps = dbC5.otps.filter (fun r => r.userId ≠ 50) ++
        [{ id := 9, userId := 50, otp := "222222"
           expiresAt := 200 + 5 * 60 * 1000, createdAt := 200 }] :=
  (resendOTP_spec dbC5 200 "9000000006" "222222" 9
    { id := 50, username := "ruser", email := "r@example.com"
      contactNo := "9000000006", password := "pw", role := .buyer
      isVerified := false, sellerApprovalStatus := none
      approvedBy := none, approvedAt := none }
    rfl rfl (by decide)).2 (by decide)

/-!  Claim C6. -/

/-- Claim C6: for a verified account with role seller supplying the
correct password, `login` fails Unauthenticated with the pending message
while `sellerApprovalStatus` is pending, fails Unauthenticated with a
distinct rejected message while rejected, and succeeds with a session
token once approved. -/
theorem login_seller_approval_gate (db : DB) (identifier password : String)
    (account : Account)
    (hacc : findAccountByIdentifier db identifier = some account)
    (hrole : account.role = .seller)
    (hver : account.isVerified = true)
    (hpw : comparePassword password account.password = true) :
    (account.sellerApprovalStatus = some .pending →
      AuthController.login db identifier password = .error (.unauthenticated
        "Your seller account is pending approval. Please wait for administrator review.")) ∧
    (account.sellerApprovalStatus = some .rejected →
      AuthController.login db identifier password = .error (.unauthenticated
        "Your seller account has been rejected. Please contact support for more information.")) ∧
    ("Your seller account is pending approval. Please wait for administrator review." ≠
      "Your seller account has been rejected. Please contact support for more information.") ∧
    (account.sellerApprovalStatus = some .approved →
      AuthController.login db identifier password = .ok (generateToken account.id)) := by
  refine ⟨?_, ?_, by decide, ?_⟩
  · intro hst
    simp [AuthController.login, hacc, hver, hrole, hst]
  · intro hst
    simp [AuthController.login, hacc, hver, hrole, hst]
  · intro hst
    simp [AuthController.login, hacc, hver, hrole, hst, hpw]

/-- Fixture for the C6 witness: an approved, verified seller account. -/
def dbC6 : DB :=
  { accounts := [{ id := 60, username := "sellersix", email := "s6@example.com"
                   contactNo := "9000000007", password := "pw", role := .seller
                   isVerified := true, sellerApprovalStatus := some .approved
                   approvedBy := some 1, approvedAt := some 0 }]
    otps := [], items := [], receipts := [], carts := [] }

/-- Witness for C6: the approved seller logs in successfully. -/
theorem login_seller_approval_gate_witness :
    AuthController.login dbC6 "sellersix" "pw" = .ok (generateToken 60) :=
  (login_seller_approval_gate dbC6 "sellersix" "pw"
    { id := 60, username := "sellersix", email := "s6@example.com"
      contactNo := "9000000007", password := "pw", role := .seller
      isVerified := true, sellerApprovalStatus := some .approved
      approvedBy := some 1, approvedAt := some 0 }
    (by decide) rfl rfl (by decide)).2.2.2 rfl

/-!  Claim C7. -/

/-- Claim C7: `addToCart` merges a request for an item already in the
buyer's cart into the existing line (quantities sum) without ever creating
a duplicate line (the line-item ids are preserved on merge, extended by
the new id on push, and stay duplicate-free either way); it rejects with
BadRequest when `quantity ≤ 0`, when the item is inactive, when the
requested (or merged) quantity exceeds current stock, or when the buyer is
the item's seller, and with NotFound when the item is absent — following
the handler's check order; and `getCart`'s `cartTotal` equals the sum of
item price × line quantity over exactly the lines whose referenced item
still resolves. -/
theorem addToCart_getCart_spec (db : DB) (userId itemId : Nat) (quantity : ℚ) :
    (∀ item cart line,
      db.findItemById itemId = some item →
      db.findCartByUser userId = some cart →
      cart.findItem itemId = some line →
      0 < quantity → item.isActive = true → quantity ≤ item.quantity →
      item.seller ≠ userId → line.quantity + quantity ≤ item.quantity →
      ∃ db2 cart2,
        CartController.addToCart db userId itemId quantity = .ok db2 ∧
        db2.findCartByUser userId = some cart2 ∧
        cart2.findItem itemId
          = some { line with quantity := line.quantity + quantity } ∧
        cart2.items.map CartLine.item = cart.items.map CartLine.item ∧
        ((cart.items.map CartLine.item).Nodup →
          (cart2.items.map CartLine.item).Nodup)) ∧
    (∀ item cart,
      db.findItemById itemId = some item →
      db.findCartByUser userId = some cart →
      cart.findItem itemId = none →
      0 < quantity → item.isActive = true → quantity ≤ item.quantity →
      item.seller ≠ userId →
      ∃ db2 cart2,
        CartController.addToCart db userId itemId quantity = .ok db2 ∧
        db2.findCartByUser userId = some cart2 ∧
        cart2.items.map CartLine.item = cart.items.map CartLine.item ++ [itemId] ∧
        ((cart.items.map CartLine.item).Nodup →
          (cart2.items.map CartLine.item).Nodup)) ∧
    (quantity ≤ 0 →
      CartController.addToCart db userId itemId quantity
        = .error (.badRequest "Quantity must be a positive number")) ∧
    (0 < quantity → db.findItemById itemId = none →
      CartController.addToCart db userId itemId quantity
        = .error (.notFound "Item not found")) ∧
    (∀ item, 0 < quantity → db.findItemById itemId = some item →
      (item.isActive = false →
        CartController.addToCart db userId itemId quantity
          = .error (.badRequest "Item is no longer available")) ∧
      (item.isActive = true → quantity > item.quantity →
        CartController.addToCart db userId itemId quantity
          = .error (.badRequest "Insufficient quantity available")) ∧
      (item.isActive = true → quantity ≤ item.quantity → item.seller = userId →
        CartController.addToCart db userId itemId quantity
          = .error (.badRequest "You cannot add your own items to cart")) ∧
      (∀ cart line, item.isActive = true → quantity ≤ item.quantity →
        item.seller ≠ userId →
        db.findCartByUser userId = some cart →
        cart.findItem itemId = some line →
        line.quantity + quantity > item.quantity →
        CartController.addToCart db userId itemId quantity
          = .error (.badRequest "Total quantity exceeds available stock"))) ∧
    (∀ cart, CartController.getCartTotal db cart =
      (cart.items.filterMap (fun l => (db.findItemById l.item).map
        (fun it => it.itemPrice * l.quantity))).sum) := by
  refine ⟨?_, ?_, ?_, ?_, ?_, ?_⟩
  · intro item cart line hfind hcart hline hq0 hactive hqle hseller hmerge
    have hcart' : db.carts.find? (fun c => c.user == userId) = some cart := hcart
    have hline' : cart.items.find? (fun l => l.item == itemId) = some line := hline
    have hnotle : ¬ quantity ≤ 0 := not_le.mpr hq0
    have hnotgt : ¬ quantity > item.quantity := not_lt.mpr hqle
    have hnotgt2 : ¬ line.quantity + quantity > item.quantity := not_lt.mpr hmerge
    have hres : CartController.addToCart db userId itemId quantity
        = .ok (db.saveCart
            (cart.updateItemQuantity itemId (line.quantity + quantity))) := by
      simp [CartController.addToCart, hnotle, hfind, hactive, hnotgt, hseller,
        hcart, hline, hnotgt2]
    have hmem : cart ∈ db.carts := List.mem_of_find?_eq_some hcart'
    have hany : db.carts.any (fun x =>
        x.user == (cart.updateItemQuantity itemId (line.quantity + quantity)).user)
        = true :=
      List.any_eq_true.mpr ⟨cart, hmem, by simp [Cart.updateItemQuantity]⟩
    refine ⟨_, cart.updateItemQuantity itemId (line.quantity + quantity),
      hres, ?_, ?_, ?_, ?_⟩
    · show ((db.saveCart _).carts.find? (fun c => c.user == userId)) = some _
      unfold DB.saveCart
      rw [if_pos hany]
      exact find_map_replace Cart.user userId _ db.carts cart hcart' rfl
    · exact updateFirstLine_find itemId
        (fun l => { l with quantity := line.quantity + quantity })
        (fun l => rfl) cart.items line hline'
    · exact updateFirstLine_map_item itemId
        (fun l => { l with quantity := line.quantity + quantity })
        (fun l => rfl) cart.items
    · intro hnd
      rw [show (cart.updateItemQuantity itemId (line.quantity + quantity)).items.map
            CartLine.item = cart.items.map CartLine.item from
          updateFirstLine_map_item itemId
            (fun l => { l with quantity := line.quantity + quantity })
            (fun l => rfl) cart.items]
      exact hnd
  · intro item cart hfind hcart hnone hq0 hactive hqle hseller
    have hcart' : db.carts.find? (fun c => c.user == userId) = some cart := hcart
    have hnone' : cart.items.find? (fun l => l.item == itemId) = none := hnone
    have hnotle : ¬ quantity ≤ 0 := not_le.mpr hq0
    have hnotgt : ¬ quantity > item.quantity := not_lt.mpr hqle
    have hres : CartController.addToCart db userId itemId quantity
        = .ok (db.saveCart (cart.addItem itemId quantity)) := by
      simp [CartController.addToCart, hnotle, hfind, hactive, hnotgt, hseller,
        hcart, hnone]
    have hmem : cart ∈ db.carts := List.mem_of_find?_eq_some hcart'
    have hpush : cart.addItem itemId quantity
        = { cart with items := cart.items ++ [{ item := itemId, quantity := quantity }] } := by
      unfold Cart.addItem
      rw [show cart.findItem itemId = none from hnone]
    have hany : db.carts.any (fun x => x.user == (cart.addItem itemId quantity).user)
        = true :=
      List.any_eq_true.mpr ⟨cart, hmem, by rw [hpush]; simp⟩
    have hnotinmap : itemId ∉ cart.items.map CartLine.item := by
      intro hin
      obtain ⟨l, hlmem, hlid⟩ := List.mem_map.mp hin
      have := List.find?_eq_none.mp hnone' l hlmem
      simp [hlid] at this
    refine ⟨_, cart.addItem itemId quantity, hres, ?_, ?_, ?_⟩
    · show ((db.saveCart _).carts.find? (fun c => c.user == userId)) = some _
      unfold DB.saveCart
      rw [if_pos hany]
      refine find_map_replace Cart.user userId _ db.carts cart hcart' ?_
      rw [hpush]
    · rw [hpush]
      simp
    · intro hnd
      rw [hpush]
      simp only [List.map_append, List.map_cons, List.map_nil]
      rw [← List.concat_eq_append]
      exact List.Nodup.concat hnotinmap hnd
  · intro hle
    simp [CartController.addToCart, hle]
  · intro hq0 hnone
    simp [CartController.addToCart, not_le.mpr hq0, hnone]
  · intro item hq0 hfind
    have hnotle : ¬ quantity ≤ 0 := not_le.mpr hq0
    refine ⟨?_, ?_, ?_, ?_⟩
    · intro hinactive
      simp [CartController.addToCart, hnotle, hfind, hinactive]
    · intro hactive hgt
      simp [CartController.addToCart, hnotle, hfind, hactive, hgt]
    · intro hactive hle hown
      simp [CartController.addToCart, hnotle, hfind, hactive, not_lt.mpr hle, hown]
    · intro cart line hactive hle hseller hcart hline hover
      simp [CartController.addToCart, hnotle, hfind, hactive, not_lt.mpr hle,
        hseller, hcart, hline, hover]
  · intro cart
    have h := cartTotal_foldl_eq db cart.items 0
    simpa [CartController.getCartTotal] using h

/-- Fixture for the C7 witness: one active item with stock 10 and a cart
for buyer 21 already holding 1 unit of it. -/
def dbC7 : DB :=
  { accounts := []
    otps := []
    items := [{ id := 2, seller := 10, itemType := "food", itemName := "bread"
                itemPrice := 3, quantity := 10, unit := "pieces", image := "i"
                imagePublicId := "p", isActive := true }]
    receipts := []
    carts := [{ user := 21, items := [{ item := 2, quantity := 1 }] }] }

/-- Witness for C7: adding 2 more units merges into the existing line. -/
theorem addToCart_getCart_spec_witness :
    ∃ db2 cart2,
      CartController.addToCart dbC7 21 2 2 = .ok db2 ∧
      db2.findCartByUser 21 = some cart2 ∧
      cart2.findItem 2 = some { item := 2, quantity := (1 : ℚ) + 2 } ∧
      cart2.items.map CartLine.item
        = ([{ item := 2, quantity := (1 : ℚ) }] : List CartLine).map CartLine.item ∧
      ((([{ item := 2, quantity := (1 : ℚ) }] : List CartLine).map CartLine.item).Nodup →
        (cart2.items.map CartLine.item).Nodup) :=
  (addToCart_getCart_spec dbC7 21 2 2).1
    { id := 2, seller := 10, itemType := "food", itemName := "bread"
      itemPrice := 3, quantity := 10, unit := "pieces", image := "i"
      imagePublicId := "p", isActive := true }
    { user := 21, items := [{ item := 2, quantity := 1 }] }
    { item := 2, quantity := 1 }
    rfl rfl rfl (by norm_num) rfl (by norm_num) (by decide) (by norm_num)

/-!  Claim C9. -/

/-- Claim C9: the pre-save hook sets `sellerApprovalStatus = "pending"`
whenever a save modifies `role` to seller, clears
`sellerApprovalStatus` / `approvedBy` / `approvedAt` whenever a save
modifies `role` to a non-seller value, and consequently every account
reachable through the account-writing handlers satisfies the invariant
that `sellerApprovalStatus` is present iff `role = seller`. -/
theorem account_approval_invariant :
    (∀ a : Account, a.role = .seller →
      (accountPreSaveHook true a).sellerApprovalStatus = some .pending) ∧
    (∀ a : Account, a.role ≠ .seller →
      (accountPreSaveHook true a).sellerApprovalStatus = none ∧
      (accountPreSaveHook true a).approvedBy = none ∧
      (accountPreSaveHook true a).approvedAt = none) ∧
    (∀ a : Account, ReachableAccount a →
      (a.sellerApprovalStatus.isSome ↔ a.role = .seller)) := by
  refine ⟨?_, ?_, ?_⟩
  · intro a h
    simp [accountPreSaveHook, h]
  · intro a h
    simp [accountPreSaveHook, h]
  · intro a h
    induction h with
    | signup id username email contactNo password role hrole =>
      rcases hrole with h | h <;> subst h <;>
        simp [createAccount, accountPreSaveHook]
    | adminCreated id username email contactNo password =>
      simp [createAccount, accountPreSaveHook]
    | otpVerified a ha ih =>
      simpa [accountPreSaveHook] using ih
    | approvalUpdated a ha hrole hpending status hstatus approver t ih =>
      simp [accountPreSaveHook, hrole]
    | profileUpdated a ha username email contactNo ih =>
      simpa [accountPreSaveHook] using ih

/-- Witness for C9: the hook at a concrete seller save and the invariant
at a concrete reachable buyer account. -/
theorem account_approval_invariant_witness :
    (accountPreSaveHook true
      { id := 70, username := "u", email := "e@example.com"
        contactNo := "9000000008", password := "pw", role := .seller
        isVerified := false, sellerApprovalStatus := none
        approvedBy := none, approvedAt := none }).sellerApprovalStatus
      = some .pending ∧
    ((createAccount 71 "v" "v@example.com" "9000000009" "pw" .buyer
        false).sellerApprovalStatus.isSome
      ↔ (createAccount 71 "v" "v@example.com" "9000000009" "pw" .buyer
        false).role = .seller) :=
  ⟨account_approval_invariant.1 _ rfl,
   account_approval_invariant.2.2 _
    (ReachableAccount.signup 71 "v" "v@example.com" "9000000009" "pw" .buyer
      (Or.inl rfl))⟩

/-!  Claim C10. -/

/-- Claim C10: when its validations pass, `createAdminAccount` creates the
account with `isVerified = true` and role admin and leaves the OTP
collection untouched, and the new admin can immediately log in with the
correct password — whereas every successful `signup` creates the account
with `isVerified = false` and one OTP record for it. -/
theorem createAdminAccount_autoverified_login (db : DB)
    (req : AuthController.AdminReq) (newId : Nat)
    (hpw : req.password = req.confirmPassword)
    (hnou : db.accounts.any (fun a => a.username == lowerStr req.username) = false)
    (hnoe : db.accounts.any (fun a => a.email == lowerStr req.email) = false)
    (hnoc : db.accounts.any (fun a => a.contactNo == req.contactNo) = false)
    (hnoid : findAccountByIdentifier db req.contactNo = none) :
    (∃ account db2,
      AuthController.createAdminAccount db req newId = .ok (db2, account) ∧
      account.isVerified = true ∧
      account.role = .admin ∧
      db2.otps = db.otps ∧
      AuthController.login db2 req.contactNo req.password
        = .ok (generateToken newId)) ∧
    (∀ (db' : DB) (now : Int) (sreq : AuthController.SignupReq)
      (naid noid : Nat) (code : String) (db2 : DB) (acc : Account),
      AuthController.signup db' now sreq naid noid code = .ok (db2, acc) →
      acc.isVerified = false ∧
      db2.otps = db'.otps ++
        [{ id := noid, userId := naid, otp := code,
           expiresAt := now + 5 * 60 * 1000, createdAt := now }]) := by
  constructor
  · have hres : AuthController.createAdminAccount db req newId
        = .ok ({ db with accounts := db.accounts ++
            [createAccount newId (lowerStr req.username) (lowerStr req.email)
              req.contactNo req.password .admin true] },
          createAccount newId (lowerStr req.username) (lowerStr req.email)
            req.contactNo req.password .admin true) := by
      simp [AuthController.createAdminAccount, hpw, hnou, hnoe, hnoc]
    set admin := createAccount newId (lowerStr req.username) (lowerStr req.email)
      req.contactNo req.password .admin true with hadmin
    have hfields := accountPreSaveHook_fields true
      { id := newId, username := lowerStr req.username, email := lowerStr req.email
        contactNo := req.contactNo, password := req.password, role := .admin
        isVerified := true, sellerApprovalStatus := some .pending
        approvedBy := none, approvedAt := none }
    have hid : admin.id = newId := hfields.1
    have hcontact : admin.contactNo = req.contactNo := hfields.2.2.2.1
    have hpass : admin.password = req.password := hfields.2.2.2.2.1
    have hrole : admin.role = .admin := hfields.2.2.2.2.2.1
    have hver : admin.isVerified = true := hfields.2.2.2.2.2.2
    have hnoid' : db.accounts.find? (fun a =>
        a.username == lowerStr req.contactNo ||
        a.email == (if req.contactNo.data.contains '@'
          then normalizeEmail req.contactNo else lowerStr req.contactNo) ||
        a.contactNo == req.contactNo) = none := hnoid
    have hpadmin : ((admin.username == lowerStr req.contactNo ||
        admin.email == (if req.contactNo.data.contains '@'
          then normalizeEmail req.contactNo else lowerStr req.contactNo)) ||
        admin.contactNo == req.contactNo) = true := by
      simp [hcontact]
    have hfound : findAccountByIdentifier
        { db with accounts := db.accounts ++ [admin] } req.contactNo
        = some admin := by
      show (db.accounts ++ [admin]).find? _ = some admin
      rw [List.find?_append, hnoid']
      simp only [Option.none_or, List.find?_singleton]
      rw [if_pos hpadmin]
    have hlogin : AuthController.login
        { db with accounts := db.accounts ++ [admin] } req.contactNo req.password
        = .ok (generateToken newId) := by
      rw [show AuthController.login { db with accounts := db.accounts ++ [admin] }
            req.contactNo req.password
          = (match findAccountByIdentifier
              { db with accounts := db.accounts ++ [admin] } req.contactNo with
            | none => .error (.notFound "Account does not exist")
            | some account =>
              if ¬ account.isVerified then
                .error (.unauthenticated
                  "Account not verified. Please verify your phone number first.")
              else if account.role = .seller ∧
                  account.sellerApprovalStatus = some .pending then
                .error (.unauthenticated
                  "Your seller account is pending approval. Please wait for administrator review.")
              else if account.role = .seller ∧
                  account.sellerApprovalStatus = some .rejected then
                .error (.unauthenticated
                  "Your seller account has been rejected. Please contact support for more information.")
              else if ¬ comparePassword req.password account.password then
                .error (.unauthenticated
                  "Invalid username/email/phone number and password")
              else .ok (generateToken account.id)) from rfl]
      rw [hfound]
      simp [hver, hrole, hpass, hid, comparePassword]
    exact ⟨admin, _, hres, hver, hrole, rfl, hlogin⟩
  · intro db' now sreq naid noid code db2 acc h
    unfold AuthController.signup at h
    split at h
    · simp at h
    · split at h
      · simp at h
      · split at h
        · split at h <;> simp at h
        · simp only [Except.ok.injEq, Prod.mk.injEq] at h
          obtain ⟨h1, h2⟩ := h
          constructor
          · rw [← h2]
            exact (accountPreSaveHook_fields true _).2.2.2.2.2.2
          · rw [← h1]

/-- Fixture for the C10 witness: an empty database and an admin-creation
request. -/
def dbC10 : DB :=
  { accounts := [], otps := [], items := [], receipts := [], carts := [] }

/-- The admin-creation request of the C10 witness. -/
def reqC10 : AuthController.AdminReq :=
  { username := "adminuser", email := "a@example.com"
    contactNo := "9000000010", password := "pw", confirmPassword := "pw" }

/-- Witness for C10: creating the admin in an empty database succeeds,
the account is auto-verified, no OTP appears, and immediate login works. -/
theorem createAdminAccount_autoverified_login_witness :
    ∃ account db2,
      AuthController.createAdminAccount dbC10 reqC10 80 = .ok (db2, account) ∧
      account.isVerified = true ∧
      account.role = .admin ∧
      db2.otps = dbC10.otps ∧
      AuthController.login db2 "9000000010" "pw" = .ok (generateToken 80) :=
  (createAdminAccount_autoverified_login dbC10 reqC10 80 rfl rfl rfl rfl rfl).1
